import Mathlib

/-!
Shallow embedding of the authentication subsystem of the youapp-api
repository.

The subsystem lives in `apps/auth/src/auth.controller.ts` (the file also
contains `AuthService` and `AuthModule` after document separators) and in
the HTTP-facing `AppController` (unnamed source part 001).

External collaborators (the user-directory RabbitMQ service, the NestJS
JwtService, scrypt hashing) are modelled as an environment `Env` of
functions.  A call that can reject (throw) returns `Except String α`;
the `String` is the thrown error.  Every Auth Service method is embedded
as a function from `Env` and its input to a pair
`(trace of external events, Except String result)`, so that control
flow, thrown errors, and the order of side effects are all visible.
-/

/-- Session claim carried by a JWT, from `interfaces/jwtToken.interface.ts`:
only a subject id. -/
structure JwtPayload where
  sub : String
deriving DecidableEq, Repr

/-- Token pair, from `interfaces/jwtToken.interface.ts`. -/
structure Jwt where
  accessToken : String
  refreshToken : String
deriving DecidableEq, Repr

/-- Business error value, shape `{statusCode, error}` as built in
`AuthService.register`. -/
structure ErrorData where
  statusCode : Nat
  error : String
deriving DecidableEq, Repr

/-- Modelled from the spec: the credential record owned by the external
user store (spec section 3).  The source only ships the `User` interface
by reference (`@app/shared/interfaces/user.interface`, not under src/);
the fields used by the core are `_id` and `password`, plus the unique
`username` and `email` named by the spec. -/
structure User where
  _id : String
  username : String
  email : String
  password : String
deriving DecidableEq, Repr

/-- Registration payload; the fields the core reads are `email`,
`username` (lookup) and the whole dto is forwarded to `create-user`. -/
structure CreateUserDto where
  username : String
  email : String
  password : String
deriving DecidableEq, Repr

/-- Login payload, from `@app/shared/interfaces/login-user.interface`. -/
structure LoginUserDto where
  usernameOrEmail : String
  password : String
deriving DecidableEq, Repr

/-- Result type of the `register` message handler: the service returns
`true` or an `ErrorData`; the controller catch branch returns `false`. -/
inductive RegResult where
  | rtrue : RegResult
  | rfalse : RegResult
  | rerror : ErrorData → RegResult
deriving DecidableEq, Repr

/-- JavaScript-style result of a message handler whose service value may
be `undefined` while the catch branch returns `null`. -/
inductive RmqResult (α : Type) where
  | val : α → RmqResult α
  | null : RmqResult α
  | undef : RmqResult α
deriving DecidableEq, Repr

/-- Truthiness of an `RmqResult` under JavaScript rules: an object is
truthy, `null` and `undefined` are falsy. -/
def RmqResult.truthy : RmqResult α → Bool
  | .val _ => true
  | .null => false
  | .undef => false

/-- Strict inequality test `x !== null`. -/
def RmqResult.isNull : RmqResult α → Bool
  | .null => true
  | _ => false

/-- View of an `RmqResult` as an optional value. -/
def RmqResult.toOption : RmqResult α → Option α
  | .val a => some a
  | _ => none

instance [DecidableEq ε] [DecidableEq α] : DecidableEq (Except ε α) := fun a b =>
  match a, b with
  | Except.ok x, Except.ok y =>
      if h : x = y then isTrue (by rw [h]) else isFalse (by intro hc; exact h (Except.ok.inj hc))
  | Except.error x, Except.error y =>
      if h : x = y then isTrue (by rw [h]) else isFalse (by intro hc; exact h (Except.error.inj hc))
  | Except.ok _, Except.error _ => isFalse (by intro hc; exact Except.noConfusion hc)
  | Except.error _, Except.ok _ => isFalse (by intro hc; exact Except.noConfusion hc)

/-- Observable external events of one request, in order.  Each event
records the arguments of the call and, where the call has a result, the
result (with `Except.error` for a rejected promise). -/
inductive Event where
  | findUser (email username : String) (res : Except String (Option User))
  | createUser (dto : CreateUserDto) (res : Except String (Option String))
  | isUserExist (userId : String) (res : Except String Bool)
  | updatePwd (userId password : String) (res : Except String Bool)
  | verifyPwd (plain digest : String) (res : Bool)
  | hashPwd (plain : String)
  | sign (sub expiresIn secret : String) (res : Except String String)
  | verifyTok (token secret : String) (res : Except String JwtPayload)
  | ack
  | nack
deriving DecidableEq, Repr

/-- Event is an ack or a nack terminal action. -/
def Event.isTerminal : Event → Bool
  | .ack => true
  | .nack => true
  | _ => false

/-- Event is a token-signing call. -/
def Event.isSign : Event → Bool
  | .sign _ _ _ _ => true
  | _ => false

/-- Environment of external collaborators.  Directory operations and the
JWT codec may reject, modelled by `Except String`.  Scrypt is modelled
from the spec: section 4.1 states that `hash` and `verify` never throw
except for programmer error, so both are total functions here
(`scryptHash` is the digest of a plaintext, `scryptVerify` the
constant-time check); the scrypt source (`@app/shared/scrypt`) is not
under src/. -/
structure Env where
  findUserByEmailOrUsername : String → String → Except String (Option User)
  createUser : CreateUserDto → Except String (Option String)
  isUserIdExist : String → Except String Bool
  updatePassword : String → String → Except String Bool
  signAsync : JwtPayload → String → String → Except String String
  verifyAsync : String → String → Except String JwtPayload
  scryptHash : String → String
  scryptVerify : String → String → Bool
  JWT_ACCESS_SECRET : String
  JWT_REFRESH_SECRET : String

/-- Traced computation: the list of external events performed, and the
normal return value or the thrown error. -/
def Tr (α : Type) : Type := List Event × Except String α

/-- Chunks of a character list split at every occurrence of `sep`,
keeping empty chunks, as JavaScript `split` does with a one-character
separator.  The result is never empty. -/
def splitChunks (sep : Char) : List Char → List (List Char)
  | [] => [[]]
  | c :: rest =>
      match splitChunks sep rest with
      | [] => [[c]]
      | h :: t => if c = sep then [] :: h :: t else (c :: h) :: t

/-- JavaScript `s.split(sep)` for a one-character separator. -/
def jsSplit (s : String) (sep : Char) : List String :=
  (splitChunks sep s.data).map String.mk

/-- JavaScript `s.startsWith(p)`. -/
def jsStartsWith (s p : String) : Bool :=
  p.data.isPrefixOf s.data

/-- JavaScript array indexing `l[i]`, with the empty string for a
missing index (unreachable in the code below: the `Bearer ` prefix
guarantees at least two chunks). -/
def jsAt (l : List String) (i : Nat) : String :=
  match l, i with
  | [], _ => ""
  | a :: _, 0 => a
  | _ :: rest, Nat.succ j => jsAt rest j

namespace AuthService

/-- Embedding of `AuthService.hashPassword`: delegate to scrypt. -/
def hashPassword (env : Env) (password : String) : Tr String :=
  ([Event.hashPwd password], Except.ok (env.scryptHash password))

/-- Embedding of `AuthService.generateJWT`: sign the payload twice via
`Promise.all` — both signing calls are performed with no ordering
dependency (each is attempted even if the other rejects), the access
token with ttl `3m` under `JWT_ACCESS_SECRET` and the refresh token with
ttl `7d` under `JWT_REFRESH_SECRET`. -/
def generateJWT (env : Env) (payload : JwtPayload) : Tr Jwt :=
  let ra := env.signAsync payload "3m" env.JWT_ACCESS_SECRET
  let rr := env.signAsync payload "7d" env.JWT_REFRESH_SECRET
  ([Event.sign payload.sub "3m" env.JWT_ACCESS_SECRET ra,
    Event.sign payload.sub "7d" env.JWT_REFRESH_SECRET rr],
   match ra, rr with
   | Except.ok a, Except.ok r => Except.ok { accessToken := a, refreshToken := r }
   | Except.error e, _ => Except.error e
   | Except.ok _, Except.error e => Except.error e)

/-- Embedding of `AuthService.register`: look the user up by email or
username; report 2002 if found; otherwise create and report 2003 when
the returned id is falsy (`!userId || userId === null`), else true. -/
def register (env : Env) (createUserDto : CreateUserDto) : Tr RegResult :=
  let fr := env.findUserByEmailOrUsername createUserDto.email createUserDto.username
  let ev0 := Event.findUser createUserDto.email createUserDto.username fr
  match fr with
  | Except.error e => ([ev0], Except.error e)
  | Except.ok (some _) =>
      ([ev0], Except.ok (RegResult.rerror { statusCode := 2002, error := "User already exists" }))
  | Except.ok none =>
      let cr := env.createUser createUserDto
      let ev1 := Event.createUser createUserDto cr
      match cr with
      | Except.error e => ([ev0, ev1], Except.error e)
      | Except.ok userId =>
          if userId = none ∨ userId = some "" then
            ([ev0, ev1], Except.ok (RegResult.rerror { statusCode := 2003, error := "User creation failed" }))
          else
            ([ev0, ev1], Except.ok RegResult.rtrue)

/-- Embedding of the private `AuthService.validateUser`: find the user
(the single input serves as both candidate email and username), verify
the password, and on match rotate the stored digest (hash the same
plaintext again and send `update-password`); the user is returned only
when the write-back reports true. -/
def validateUser (env : Env) (emailOrUsername password : String) : Tr (Option User) :=
  let fr := env.findUserByEmailOrUsername emailOrUsername emailOrUsername
  let ev0 := Event.findUser emailOrUsername emailOrUsername fr
  match fr with
  | Except.error e => ([ev0], Except.error e)
  | Except.ok none => ([ev0], Except.ok none)
  | Except.ok (some user) =>
      let isPasswordMatched := env.scryptVerify password user.password
      let ev1 := Event.verifyPwd password user.password isPasswordMatched
      if isPasswordMatched then
        match hashPassword env password with
        | (hevs, Except.error e) => ([ev0, ev1] ++ hevs, Except.error e)
        | (hevs, Except.ok newPassword) =>
            let ur := env.updatePassword user._id newPassword
            let ev3 := Event.updatePwd user._id newPassword ur
            match ur with
            | Except.error e => ([ev0, ev1] ++ hevs ++ [ev3], Except.error e)
            | Except.ok result =>
                ([ev0, ev1] ++ hevs ++ [ev3],
                 Except.ok (if result then some user else none))
      else
        ([ev0, ev1], Except.ok none)

/-- Embedding of `AuthService.login`: validate the user, return
`undefined` (`none`) when validation yields null, otherwise issue a
token pair keyed to the user id. -/
def login (env : Env) (loginUserDto : LoginUserDto) : Tr (Option Jwt) :=
  match validateUser env loginUserDto.usernameOrEmail loginUserDto.password with
  | (evs, Except.error e) => (evs, Except.error e)
  | (evs, Except.ok none) => (evs, Except.ok none)
  | (evs, Except.ok (some user)) =>
      let g := generateJWT env { sub := user._id }
      (evs ++ g.1, g.2.map some)

/-- Try block of `AuthService.refresh`: require the `Bearer ` prefix
(return `undefined` when absent), take the second space-separated chunk,
verify it against the refresh secret, and issue a fresh pair from the
verified subject. -/
def refreshBody (env : Env) (refreshToken : String) : Tr (Option Jwt) :=
  if jsStartsWith refreshToken "Bearer " then
    let tok := jsAt (jsSplit refreshToken ' ') 1
    let vr := env.verifyAsync tok env.JWT_REFRESH_SECRET
    let ev0 := Event.verifyTok tok env.JWT_REFRESH_SECRET vr
    match vr with
    | Except.error e => ([ev0], Except.error e)
    | Except.ok payload =>
        let g := generateJWT env { sub := payload.sub }
        (ev0 :: g.1, g.2.map some)
  else
    ([], Except.ok none)

/-- Embedding of `AuthService.refresh`: the try block `refreshBody`
inside a catch that turns any thrown error into `undefined`. -/
def refresh (env : Env) (refreshToken : String) : Tr (Option Jwt) :=
  match refreshBody env refreshToken with
  | (evs, Except.error _) => (evs, Except.ok none)
  | (evs, Except.ok v) => (evs, Except.ok v)

/-- Try block of `AuthService.validateJwt`: verify the token against the
access secret, then ask the directory whether the subject id still
exists; return the payload only when it does. -/
def validateJwtBody (env : Env) (jwt : String) : Tr (Option JwtPayload) :=
  let vr := env.verifyAsync jwt env.JWT_ACCESS_SECRET
  let ev0 := Event.verifyTok jwt env.JWT_ACCESS_SECRET vr
  match vr with
  | Except.error e => ([ev0], Except.error e)
  | Except.ok payload =>
      let er := env.isUserIdExist payload.sub
      let ev1 := Event.isUserExist payload.sub er
      match er with
      | Except.error e => ([ev0, ev1], Except.error e)
      | Except.ok isUserExist =>
          ([ev0, ev1], Except.ok (if isUserExist then some payload else none))

/-- Embedding of `AuthService.validateJwt`: the try block
`validateJwtBody` inside a catch that turns any thrown error into
`undefined`. -/
def validateJwt (env : Env) (jwt : String) : Tr (Option JwtPayload) :=
  match validateJwtBody env jwt with
  | (evs, Except.error _) => (evs, Except.ok none)
  | (evs, Except.ok v) => (evs, Except.ok v)

end AuthService

namespace AuthController

/-- Embedding of the `register` message handler: invoke the service in a
try/catch; ack and return the result on normal return, nack and return
`false` on a thrown error. -/
def register (env : Env) (dto : CreateUserDto) : List Event × RegResult :=
  match AuthService.register env dto with
  | (evs, Except.ok result) => (evs ++ [Event.ack], result)
  | (evs, Except.error _) => (evs ++ [Event.nack], RegResult.rfalse)

/-- Embedding of the `login` message handler: ack and return the service
result (a pair, or `undefined`) on normal return, nack and return `null`
on a thrown error. -/
def login (env : Env) (dto : LoginUserDto) : List Event × RmqResult Jwt :=
  match AuthService.login env dto with
  | (evs, Except.ok (some jwt)) => (evs ++ [Event.ack], RmqResult.val jwt)
  | (evs, Except.ok none) => (evs ++ [Event.ack], RmqResult.undef)
  | (evs, Except.error _) => (evs ++ [Event.nack], RmqResult.null)

/-- Embedding of the `refresh` message handler. -/
def refresh (env : Env) (token : String) : List Event × RmqResult Jwt :=
  match AuthService.refresh env token with
  | (evs, Except.ok (some jwt)) => (evs ++ [Event.ack], RmqResult.val jwt)
  | (evs, Except.ok none) => (evs ++ [Event.ack], RmqResult.undef)
  | (evs, Except.error _) => (evs ++ [Event.nack], RmqResult.null)

/-- Embedding of the `hash-password` message handler. -/
def hashPassword (env : Env) (password : String) : List Event × RmqResult String :=
  match AuthService.hashPassword env password with
  | (evs, Except.ok result) => (evs ++ [Event.ack], RmqResult.val result)
  | (evs, Except.error _) => (evs ++ [Event.nack], RmqResult.null)

/-- Embedding of the `validate` message handler. -/
def validate (env : Env) (jwt : String) : List Event × RmqResult JwtPayload :=
  match AuthService.validateJwt env jwt with
  | (evs, Except.ok (some payload)) => (evs ++ [Event.ack], RmqResult.val payload)
  | (evs, Except.ok none) => (evs ++ [Event.ack], RmqResult.undef)
  | (evs, Except.error _) => (evs ++ [Event.nack], RmqResult.null)

end AuthController

/-- HTTP response as built by the outer gateway: status plus the
`ServerResponse` body fields; a JavaScript `undefined` field is `none`
(the key is absent from the serialized JSON). -/
structure HttpReply (α : Type) where
  status : Nat
  isOk : Bool
  message : Option String
  errorCode : Option Nat
  data : Option α
deriving DecidableEq, Repr

namespace AppController

/-- Embedding of `AppController.login` (unnamed part 001): the body
flags `isOk` from `jwt !== null` while the status comes from the
truthiness test `!jwt`. -/
def login (jwt : RmqResult Jwt) : HttpReply Jwt :=
  let isJwtValid := !jwt.isNull
  { status := if !jwt.truthy then 400 else 200
    isOk := isJwtValid
    message := if !isJwtValid then some "Invalid username, email or password" else none
    errorCode := if !isJwtValid then some 2004 else none
    data := if !isJwtValid then none else jwt.toOption }

/-- Embedding of `AppController.refreshToken` (unnamed part 001). -/
def refreshToken (jwt : RmqResult Jwt) : HttpReply Jwt :=
  let isJwtValid := !jwt.isNull
  { status := if !jwt.truthy then 401 else 200
    isOk := isJwtValid
    message := if !isJwtValid then some "Invalid refresh token" else none
    errorCode := if !isJwtValid then some 2005 else none
    data := if !isJwtValid then none else jwt.toOption }

end AppController

/-- Concrete registered user for test environments. -/
def userA : User :=
  { _id := "u1", username := "alice", email := "a@x.com", password := "h:pw" }

/-- Concrete healthy environment: one stored user `userA`, a working
directory, a deterministic codec (`sub.ttl.secret` tokens) and a
deterministic scrypt model (`h:` prefixed digests). -/
def envA : Env :=
  { findUserByEmailOrUsername := fun email username =>
      Except.ok (if email = "a@x.com" ∨ username = "alice" then some userA else none)
    createUser := fun _ => Except.ok (some "u2")
    isUserIdExist := fun userId => Except.ok (userId == "u1")
    updatePassword := fun _ _ => Except.ok true
    signAsync := fun p ttl secret => Except.ok (p.sub ++ "." ++ ttl ++ "." ++ secret)
    verifyAsync := fun tok secret =>
      if tok = "rtok" ∧ secret = "rs" then Except.ok { sub := "u1" }
      else if tok = "atok" ∧ secret = "as" then Except.ok { sub := "u1" }
      else Except.error "invalid or expired"
    scryptHash := fun p => "h:" ++ p
    scryptVerify := fun p digest => digest == "h:" ++ p
    JWT_ACCESS_SECRET := "as"
    JWT_REFRESH_SECRET := "rs" }

/-- Concrete environment whose directory write-back rejects every
password update. -/
def envUpdFail : Env :=
  { envA with updatePassword := fun _ _ => Except.ok false }

/-- Concrete environment whose directory is unreachable: every directory
call rejects. -/
def envDown : Env :=
  { envA with
    findUserByEmailOrUsername := fun _ _ => Except.error "ECONNREFUSED"
    createUser := fun _ => Except.error "ECONNREFUSED"
    isUserIdExist := fun _ => Except.error "ECONNREFUSED"
    updatePassword := fun _ _ => Except.error "ECONNREFUSED" }

example : (AuthService.login envA { usernameOrEmail := "alice", password := "pw" }).2 =
    Except.ok (some { accessToken := "u1.3m.as", refreshToken := "u1.7d.rs" }) := by decide

example : (AuthService.refresh envA "Bearer rtok").2 =
    Except.ok (some { accessToken := "u1.3m.as", refreshToken := "u1.7d.rs" }) := by decide

example : (AuthService.refresh envA "rtok").2 = Except.ok none := by decide

example : (AuthService.validateJwt envA "atok").2 = Except.ok (some { sub := "u1" }) := by decide

example : (AuthService.login envUpdFail { usernameOrEmail := "alice", password := "pw" }).2 =
    Except.ok none := by decide

/-- Claim C9: `hashPassword` always returns the scrypt digest and never
fails: the service result is a normal return (never a business error,
never a thrown error), so the message handler for `hash-password`
always acks and returns the digest — its catch branch is unreachable. -/
theorem hashPassword_never_fails (env : Env) (password : String) :
    AuthService.hashPassword env password =
      ([Event.hashPwd password], Except.ok (env.scryptHash password)) ∧
    AuthController.hashPassword env password =
      ([Event.hashPwd password, Event.ack], RmqResult.val (env.scryptHash password)) :=
  ⟨rfl, rfl⟩

/-- Claim C10: in the HTTP login and refresh endpoints the body flag
`isOk` equals the strict test `result !== null`; when the auth service
signals failure with `undefined`, the status is 400 (login) or 401
(refresh) while the body says `isOk := true` with no error code and no
message. -/
theorem appController_isOk_mismatch :
    (∀ r : RmqResult Jwt,
      (AppController.login r).isOk = !r.isNull ∧
      (AppController.refreshToken r).isOk = !r.isNull) ∧
    AppController.login RmqResult.undef =
      { status := 400, isOk := true, message := none, errorCode := none, data := none } ∧
    AppController.refreshToken RmqResult.undef =
      { status := 401, isOk := true, message := none, errorCode := none, data := none } :=
  ⟨fun _ => ⟨rfl, rfl⟩, rfl, rfl⟩

/-- Claim C4: `validateJwt` returns the session claim exactly when the
token verifies under the access secret and the directory reports the
subject id as still existing; it returns `undefined` when verification
throws (invalid signature or expired token) or when the directory
reports the subject gone. -/
theorem validateJwt_gate (env : Env) (jwt : String) :
    (∀ p, (AuthService.validateJwt env jwt).2 = Except.ok (some p) ↔
        (env.verifyAsync jwt env.JWT_ACCESS_SECRET = Except.ok p ∧
         env.isUserIdExist p.sub = Except.ok true)) ∧
    (((∃ e, env.verifyAsync jwt env.JWT_ACCESS_SECRET = Except.error e) ∨
      (∃ p, env.verifyAsync jwt env.JWT_ACCESS_SECRET = Except.ok p ∧
        env.isUserIdExist p.sub = Except.ok false)) →
      (AuthService.validateJwt env jwt).2 = Except.ok none) := by
  rcases hv : env.verifyAsync jwt env.JWT_ACCESS_SECRET with e | q
  · have hval : (AuthService.validateJwt env jwt).2 = Except.ok none := by
      simp [AuthService.validateJwt, AuthService.validateJwtBody, hv]
    refine ⟨fun p => iff_of_false (by simp [hval]) ?_, fun _ => hval⟩
    rintro ⟨hq, -⟩
    exact Except.noConfusion hq
  · rcases he : env.isUserIdExist q.sub with e2 | b
    · have hval : (AuthService.validateJwt env jwt).2 = Except.ok none := by
        simp [AuthService.validateJwt, AuthService.validateJwtBody, hv, he]
      refine ⟨fun p => iff_of_false (by simp [hval]) ?_, fun _ => hval⟩
      rintro ⟨hq, hx⟩
      obtain rfl := Except.ok.inj hq
      rw [he] at hx
      exact Except.noConfusion hx
    · cases b
      · have hval : (AuthService.validateJwt env jwt).2 = Except.ok none := by
          simp [AuthService.validateJwt, AuthService.validateJwtBody, hv, he]
        refine ⟨fun p => iff_of_false (by simp [hval]) ?_, fun _ => hval⟩
        rintro ⟨hq, hx⟩
        obtain rfl := Except.ok.inj hq
        rw [he] at hx
        exact absurd (Except.ok.inj hx) (by simp)
      · have hval : (AuthService.validateJwt env jwt).2 = Except.ok (some q) := by
          simp [AuthService.validateJwt, AuthService.validateJwtBody, hv, he]
        constructor
        · intro p
          constructor
          · intro h
            rw [hval] at h
            obtain rfl := Option.some.inj (Except.ok.inj h)
            exact ⟨rfl, he⟩
          · rintro ⟨hq, -⟩
            obtain rfl := Except.ok.inj hq
            exact hval
        · rintro (⟨e, hbad⟩ | ⟨p, hp, hx⟩)
          · exact Except.noConfusion hbad
          · obtain rfl := Except.ok.inj hp
            rw [he] at hx
            exact absurd (Except.ok.inj hx) (by simp)

/-- Witness for `validateJwt_gate`: in the concrete environment `envA`,
a good access token yields its claim and a bad token yields none. -/
theorem validateJwt_gate_witness :
    (AuthService.validateJwt envA "atok").2 = Except.ok (some { sub := "u1" }) ∧
    (AuthService.validateJwt envA "bad").2 = Except.ok none :=
  ⟨((validateJwt_gate envA "atok").1 { sub := "u1" }).mpr (by decide),
   (validateJwt_gate envA "bad").2 (Or.inl ⟨"invalid or expired", by decide⟩)⟩

/-- Claim C2: `refresh` returns `undefined` when the `Bearer ` prefix is
absent or when the stripped token does not verify under the refresh
secret (invalid signature or expired); when the prefix is present, the
token verifies to a payload, and the two signing calls succeed, it
returns a fresh token pair built solely from the verified subject. -/
theorem refresh_contract (env : Env) (t : String) :
    (jsStartsWith t "Bearer " = false → (AuthService.refresh env t).2 = Except.ok none) ∧
    (∀ e, jsStartsWith t "Bearer " = true →
      env.verifyAsync (jsAt (jsSplit t ' ') 1) env.JWT_REFRESH_SECRET = Except.error e →
      (AuthService.refresh env t).2 = Except.ok none) ∧
    (∀ p a r, jsStartsWith t "Bearer " = true →
      env.verifyAsync (jsAt (jsSplit t ' ') 1) env.JWT_REFRESH_SECRET = Except.ok p →
      env.signAsync { sub := p.sub } "3m" env.JWT_ACCESS_SECRET = Except.ok a →
      env.signAsync { sub := p.sub } "7d" env.JWT_REFRESH_SECRET = Except.ok r →
      (AuthService.refresh env t).2 =
        Except.ok (some { accessToken := a, refreshToken := r })) := by
  refine ⟨fun hb => ?_, fun e hb hv => ?_, fun p a r hb hv ha hr => ?_⟩
  · simp [AuthService.refresh, AuthService.refreshBody, hb]
  · simp [AuthService.refresh, AuthService.refreshBody, hb, hv]
  · simp [AuthService.refresh, AuthService.refreshBody, AuthService.generateJWT,
      Except.map, hb, hv, ha, hr]

/-- Witness for `refresh_contract`: in `envA`, a prefix-less valid
token fails, an invalid token with prefix fails, and `Bearer rtok`
yields a fresh pair. -/
theorem refresh_contract_witness :
    (AuthService.refresh envA "rtok").2 = Except.ok none ∧
    (AuthService.refresh envA "Bearer expired").2 = Except.ok none ∧
    (AuthService.refresh envA "Bearer rtok").2 =
      Except.ok (some { accessToken := "u1.3m.as", refreshToken := "u1.7d.rs" }) :=
  ⟨(refresh_contract envA "rtok").1 (by decide),
   (refresh_contract envA "Bearer expired").2.1 "invalid or expired" (by decide) (by decide),
   (refresh_contract envA "Bearer rtok").2.2 { sub := "u1" } "u1.3m.as" "u1.7d.rs"
     (by decide) (by decide) (by decide) (by decide)⟩

/-- Claim C3: when `register` returns normally, it reports
`{2002, User already exists}` exactly when the directory lookup by
email-or-username finds a match, reports `{2003, User creation failed}`
when the lookup finds nothing and the directory create returns no id,
and returns `true` only when the create returned a non-null (and
non-empty) id. -/
theorem register_gate (env : Env) (dto : CreateUserDto) (r : RegResult)
    (h : (AuthService.register env dto).2 = Except.ok r) :
    (r = RegResult.rerror { statusCode := 2002, error := "User already exists" } ↔
      ∃ u, env.findUserByEmailOrUsername dto.email dto.username = Except.ok (some u)) ∧
    (env.findUserByEmailOrUsername dto.email dto.username = Except.ok none →
      env.createUser dto = Except.ok none →
      r = RegResult.rerror { statusCode := 2003, error := "User creation failed" }) ∧
    (r = RegResult.rtrue →
      ∃ id, env.createUser dto = Except.ok (some id) ∧ id ≠ "") := by
  rcases hf : env.findUserByEmailOrUsername dto.email dto.username with e | u?
  · simp [AuthService.register, hf] at h
  · rcases u? with - | u
    · rcases hc : env.createUser dto with e | id?
      · simp [AuthService.register, hf, hc] at h
      · rcases id? with - | id
        · have hval : (AuthService.register env dto).2 =
              Except.ok (RegResult.rerror { statusCode := 2003, error := "User creation failed" }) := by
            simp [AuthService.register, hf, hc]
          rw [hval] at h
          obtain rfl := (Except.ok.inj h).symm
          refine ⟨iff_of_false (by simp) ?_, fun _ _ => rfl, fun hr => absurd hr (by simp)⟩
          rintro ⟨u, hu⟩
          exact Option.noConfusion (Except.ok.inj hu)
        · by_cases hid : id = ""
          · have hval : (AuthService.register env dto).2 =
                Except.ok (RegResult.rerror { statusCode := 2003, error := "User creation failed" }) := by
              simp [AuthService.register, hf, hc, hid]
            rw [hval] at h
            obtain rfl := (Except.ok.inj h).symm
            refine ⟨iff_of_false (by simp) ?_, fun _ hcn => ?_, fun hr => absurd hr (by simp)⟩
            · rintro ⟨u, hu⟩
              exact Option.noConfusion (Except.ok.inj hu)
            · exact absurd (Except.ok.inj hcn) (by simp)
          · have hval : (AuthService.register env dto).2 = Except.ok RegResult.rtrue := by
              simp [AuthService.register, hf, hc, hid]
            rw [hval] at h
            obtain rfl := (Except.ok.inj h).symm
            refine ⟨iff_of_false (by simp) ?_, fun _ hcn => ?_, fun _ => ⟨id, rfl, hid⟩⟩
            · rintro ⟨u, hu⟩
              exact Option.noConfusion (Except.ok.inj hu)
            · exact absurd (Except.ok.inj hcn) (by simp)
    · have hval : (AuthService.register env dto).2 =
          Except.ok (RegResult.rerror { statusCode := 2002, error := "User already exists" }) := by
        simp [AuthService.register, hf]
      rw [hval] at h
      obtain rfl := (Except.ok.inj h).symm
      refine ⟨iff_of_true rfl ⟨u, rfl⟩, fun hfn _ => ?_, fun hr => absurd hr (by simp)⟩
      exact Option.noConfusion (Except.ok.inj hfn)

/-- Witness for `register_gate`: in `envA`, registering the existing
user reports 2002 (so a matching record exists), and registering a new
user returns true (so the create call returned a usable id). -/
theorem register_gate_witness :
    (∃ u, envA.findUserByEmailOrUsername "a@x.com" "alice" = Except.ok (some u)) ∧
    (∃ id, envA.createUser { username := "bob", email := "b@x.com", password := "x" } =
      Except.ok (some id) ∧ id ≠ "") :=
  ⟨(register_gate envA { username := "alice", email := "a@x.com", password := "x" }
      (RegResult.rerror { statusCode := 2002, error := "User already exists" })
      (by decide)).1.mp rfl,
   (register_gate envA { username := "bob", email := "b@x.com", password := "x" }
      RegResult.rtrue (by decide)).2.2 rfl⟩

/-- Claim C1: when `login` returns normally, it returns no token pair
exactly when (a) the directory lookup by email-or-username finds no
record, (b) the password does not verify against the stored digest, or
(c) the password verifies but the rotation write-back reports false;
and a pair is returned only when lookup, verification and write-back
all succeed. -/
theorem login_gate (env : Env) (dto : LoginUserDto) (r : Option Jwt)
    (h : (AuthService.login env dto).2 = Except.ok r) :
    (r = none ↔
      env.findUserByEmailOrUsername dto.usernameOrEmail dto.usernameOrEmail =
        Except.ok none ∨
      (∃ u, env.findUserByEmailOrUsername dto.usernameOrEmail dto.usernameOrEmail =
        Except.ok (some u) ∧ env.scryptVerify dto.password u.password = false) ∨
      (∃ u, env.findUserByEmailOrUsername dto.usernameOrEmail dto.usernameOrEmail =
        Except.ok (some u) ∧ env.scryptVerify dto.password u.password = true ∧
        env.updatePassword u._id (env.scryptHash dto.password) = Except.ok false)) ∧
    (∀ jwt, r = some jwt →
      ∃ u, env.findUserByEmailOrUsername dto.usernameOrEmail dto.usernameOrEmail =
        Except.ok (some u) ∧ env.scryptVerify dto.password u.password = true ∧
        env.updatePassword u._id (env.scryptHash dto.password) = Except.ok true) := by
  rcases hf : env.findUserByEmailOrUsername dto.usernameOrEmail dto.usernameOrEmail
    with e | u?
  · simp [AuthService.login, AuthService.validateUser, hf] at h
  · rcases u? with - | u
    · have hval : (AuthService.login env dto).2 = Except.ok none := by
        simp [AuthService.login, AuthService.validateUser, hf]
      rw [hval] at h
      obtain rfl := (Except.ok.inj h).symm
      exact ⟨iff_of_true rfl (Or.inl rfl), fun jwt hj => absurd hj (by simp)⟩
    · cases hm : env.scryptVerify dto.password u.password
      · have hval : (AuthService.login env dto).2 = Except.ok none := by
          simp [AuthService.login, AuthService.validateUser, hf, hm]
        rw [hval] at h
        obtain rfl := (Except.ok.inj h).symm
        exact ⟨iff_of_true rfl (Or.inr (Or.inl ⟨u, rfl, hm⟩)),
          fun jwt hj => absurd hj (by simp)⟩
      · rcases hu : env.updatePassword u._id (env.scryptHash dto.password) with e | b
        · simp [AuthService.login, AuthService.validateUser, AuthService.hashPassword,
            hf, hm, hu] at h
        · cases b
          · have hval : (AuthService.login env dto).2 = Except.ok none := by
              simp [AuthService.login, AuthService.validateUser,
                AuthService.hashPassword, hf, hm, hu]
            rw [hval] at h
            obtain rfl := (Except.ok.inj h).symm
            exact ⟨iff_of_true rfl (Or.inr (Or.inr ⟨u, rfl, hm, hu⟩)),
              fun jwt hj => absurd hj (by simp)⟩
          · rcases ha : env.signAsync { sub := u._id } "3m" env.JWT_ACCESS_SECRET
              with e | a
            · simp [AuthService.login, AuthService.validateUser,
                AuthService.hashPassword, AuthService.generateJWT, Except.map,
                hf, hm, hu, ha] at h
            · rcases hb2 : env.signAsync { sub := u._id } "7d" env.JWT_REFRESH_SECRET
                with e | c
              · simp [AuthService.login, AuthService.validateUser,
                  AuthService.hashPassword, AuthService.generateJWT, Except.map,
                  hf, hm, hu, ha, hb2] at h
              · have hval : (AuthService.login env dto).2 =
                    Except.ok (some { accessToken := a, refreshToken := c }) := by
                  simp [AuthService.login, AuthService.validateUser,
                    AuthService.hashPassword, AuthService.generateJWT, Except.map,
                    hf, hm, hu, ha, hb2]
                rw [hval] at h
                obtain rfl := (Except.ok.inj h).symm
                constructor
                · refine iff_of_false (by simp) ?_
                  rintro (h1 | ⟨u2, h1, h2⟩ | ⟨u2, h1, h2, h3⟩)
                  · exact Option.noConfusion (Except.ok.inj h1)
                  · obtain rfl := Option.some.inj (Except.ok.inj h1)
                    rw [hm] at h2
                    exact Bool.noConfusion h2
                  · obtain rfl := Option.some.inj (Except.ok.inj h1)
                    rw [hu] at h3
                    exact Bool.noConfusion (Except.ok.inj h3)
                · exact fun jwt _ => ⟨u, rfl, hm, hu⟩

/-- Witness for `login_gate`: in `envA` a correct-password login
succeeds, so lookup, verification and write-back all reported success;
in `envUpdFail` (write-back reports false) the same login returns no
token, and the mp direction pins down which gate failed. -/
theorem login_gate_witness :
    (∃ u, envA.findUserByEmailOrUsername "alice" "alice" = Except.ok (some u) ∧
      envA.scryptVerify "pw" u.password = true ∧
      envA.updatePassword u._id (envA.scryptHash "pw") = Except.ok true) ∧
    (envUpdFail.findUserByEmailOrUsername "alice" "alice" = Except.ok none ∨
     (∃ u, envUpdFail.findUserByEmailOrUsername "alice" "alice" = Except.ok (some u) ∧
       envUpdFail.scryptVerify "pw" u.password = false) ∨
     (∃ u, envUpdFail.findUserByEmailOrUsername "alice" "alice" = Except.ok (some u) ∧
       envUpdFail.scryptVerify "pw" u.password = true ∧
       envUpdFail.updatePassword u._id (envUpdFail.scryptHash "pw") = Except.ok false)) :=
  ⟨(login_gate envA { usernameOrEmail := "alice", password := "pw" }
      (some { accessToken := "u1.3m.as", refreshToken := "u1.7d.rs" }) (by decide)).2
      { accessToken := "u1.3m.as", refreshToken := "u1.7d.rs" } rfl,
   (login_gate envUpdFail { usernameOrEmail := "alice", password := "pw" }
      none (by decide)).1.mp rfl⟩

/-- Claim C7: if a login invocation ever signs a token, then its event
trace starts with the lookup, a successful password verification, the
re-hash of the same plaintext, and a write-back that reported true — in
that order — and signing happens only after them.  Contrapositive: when
the write-back does not report true, no token is signed (rotation
failure vetoes issuance). -/
theorem login_rotation_order (env : Env) (dto : LoginUserDto) (tr : List Event)
    (res : Except String (Option Jwt)) (h : AuthService.login env dto = (tr, res))
    (hs : ∃ sub ttl secret sres, Event.sign sub ttl secret sres ∈ tr) :
    ∃ u ra rb, tr =
      [Event.findUser dto.usernameOrEmail dto.usernameOrEmail (Except.ok (some u)),
       Event.verifyPwd dto.password u.password true,
       Event.hashPwd dto.password,
       Event.updatePwd u._id (env.scryptHash dto.password) (Except.ok true),
       Event.sign u._id "3m" env.JWT_ACCESS_SECRET ra,
       Event.sign u._id "7d" env.JWT_REFRESH_SECRET rb] := by
  obtain ⟨s, tl, k, sr, hmem⟩ := hs
  have htr : (AuthService.login env dto).1 = tr := congrArg Prod.fst h
  rcases hf : env.findUserByEmailOrUsername dto.usernameOrEmail dto.usernameOrEmail
    with e | u?
  · have : tr = [Event.findUser dto.usernameOrEmail dto.usernameOrEmail
        (Except.error e)] := by
      rw [← htr]; simp [AuthService.login, AuthService.validateUser, hf]
    subst this; simp at hmem
  · rcases u? with - | u
    · have : tr = [Event.findUser dto.usernameOrEmail dto.usernameOrEmail
          (Except.ok none)] := by
        rw [← htr]; simp [AuthService.login, AuthService.validateUser, hf]
      subst this; simp at hmem
    · cases hm : env.scryptVerify dto.password u.password
      · have : tr = [Event.findUser dto.usernameOrEmail dto.usernameOrEmail
            (Except.ok (some u)),
            Event.verifyPwd dto.password u.password false] := by
          rw [← htr]; simp [AuthService.login, AuthService.validateUser, hf, hm]
        subst this; simp at hmem
      · rcases hu : env.updatePassword u._id (env.scryptHash dto.password) with e | b
        · have : tr = [Event.findUser dto.usernameOrEmail dto.usernameOrEmail
              (Except.ok (some u)),
              Event.verifyPwd dto.password u.password true,
              Event.hashPwd dto.password,
              Event.updatePwd u._id (env.scryptHash dto.password) (Except.error e)] := by
            rw [← htr]
            simp [AuthService.login, AuthService.validateUser,
              AuthService.hashPassword, hf, hm, hu]
          subst this; simp at hmem
        · cases b
          · have : tr = [Event.findUser dto.usernameOrEmail dto.usernameOrEmail
                (Except.ok (some u)),
                Event.verifyPwd dto.password u.password true,
                Event.hashPwd dto.password,
                Event.updatePwd u._id (env.scryptHash dto.password) (Except.ok false)] := by
              rw [← htr]
              simp [AuthService.login, AuthService.validateUser,
                AuthService.hashPassword, hf, hm, hu]
            subst this; simp at hmem
          · refine ⟨u, env.signAsync { sub := u._id } "3m" env.JWT_ACCESS_SECRET,
              env.signAsync { sub := u._id } "7d" env.JWT_REFRESH_SECRET, ?_⟩
            rw [← htr]
            simp [AuthService.login, AuthService.validateUser,
              AuthService.hashPassword, AuthService.generateJWT, hf, hm, hu]

/-- Witness for `login_rotation_order`: the happy-path login in `envA`
signs tokens, and its trace has exactly the required shape. -/
theorem login_rotation_order_witness :
    ∃ u ra rb,
      (AuthService.login envA { usernameOrEmail := "alice", password := "pw" }).1 =
      [Event.findUser "alice" "alice" (Except.ok (some u)),
       Event.verifyPwd "pw" u.password true,
       Event.hashPwd "pw",
       Event.updatePwd u._id (envA.scryptHash "pw") (Except.ok true),
       Event.sign u._id "3m" envA.JWT_ACCESS_SECRET ra,
       Event.sign u._id "7d" envA.JWT_REFRESH_SECRET rb] :=
  login_rotation_order envA { usernameOrEmail := "alice", password := "pw" } _ _ rfl
    ⟨"u1", "3m", "as", Except.ok "u1.3m.as", by decide⟩

/-- Claim C8: `generateJWT` always performs exactly the two signing
calls — the access token with a 3 minute lifetime under the access
secret, the refresh token with a 7 day lifetime under the distinct
refresh secret — and neither call is gated on the other (both events
occur even when one sign rejects); on success each returned token is
exactly the result of its own signing call. -/
theorem generateJWT_pair (env : Env) (p : JwtPayload) :
    (∃ ra rb, (AuthService.generateJWT env p).1 =
      [Event.sign p.sub "3m" env.JWT_ACCESS_SECRET ra,
       Event.sign p.sub "7d" env.JWT_REFRESH_SECRET rb]) ∧
    (∀ jwt, (AuthService.generateJWT env p).2 = Except.ok jwt →
      env.signAsync p "3m" env.JWT_ACCESS_SECRET = Except.ok jwt.accessToken ∧
      env.signAsync p "7d" env.JWT_REFRESH_SECRET = Except.ok jwt.refreshToken) := by
  constructor
  · exact ⟨_, _, rfl⟩
  · intro jwt hj
    rcases ha : env.signAsync p "3m" env.JWT_ACCESS_SECRET with e | a
    · simp [AuthService.generateJWT, ha] at hj
    · rcases hb : env.signAsync p "7d" env.JWT_REFRESH_SECRET with e | b
      · simp [AuthService.generateJWT, ha, hb] at hj
      · have hval : (AuthService.generateJWT env p).2 =
            Except.ok { accessToken := a, refreshToken := b } := by
          simp [AuthService.generateJWT, ha, hb]
        rw [hval] at hj
        obtain rfl := (Except.ok.inj hj).symm
        exact ⟨rfl, rfl⟩

/-- Witness for `generateJWT_pair`: the concrete codec of `envA` signs
the claim `u1` into the expected pair. -/
theorem generateJWT_pair_witness :
    envA.signAsync { sub := "u1" } "3m" envA.JWT_ACCESS_SECRET =
      Except.ok "u1.3m.as" ∧
    envA.signAsync { sub := "u1" } "7d" envA.JWT_REFRESH_SECRET =
      Except.ok "u1.7d.rs" :=
  (generateJWT_pair envA { sub := "u1" }).2
    { accessToken := "u1.3m.as", refreshToken := "u1.7d.rs" } (by decide)

/-- Service traces contain no ack/nack: `generateJWT`. -/
theorem svc_generateJWT_clean (env : Env) (p : JwtPayload) :
    (AuthService.generateJWT env p).1.countP Event.isTerminal = 0 := rfl

/-- Service traces contain no ack/nack: `hashPassword`. -/
theorem svc_hashPassword_clean (env : Env) (p : String) :
    (AuthService.hashPassword env p).1.countP Event.isTerminal = 0 := rfl

/-- Service traces contain no ack/nack: `register`. -/
theorem svc_register_clean (env : Env) (dto : CreateUserDto) :
    (AuthService.register env dto).1.countP Event.isTerminal = 0 := by
  rcases hf : env.findUserByEmailOrUsername dto.email dto.username with e | u?
  · simp [AuthService.register, hf, Event.isTerminal]
  · rcases u? with - | u
    · rcases hc : env.createUser dto with e | id?
      · simp [AuthService.register, hf, hc, Event.isTerminal]
      · by_cases hid : id? = none ∨ id? = some ""
        · simp [AuthService.register, hf, hc, hid, Event.isTerminal]
        · simp [AuthService.register, hf, hc, hid, Event.isTerminal]
    · simp [AuthService.register, hf, Event.isTerminal]

/-- Service traces contain no ack/nack: `validateUser`. -/
theorem svc_validateUser_clean (env : Env) (a p : String) :
    (AuthService.validateUser env a p).1.countP Event.isTerminal = 0 := by
  rcases hf : env.findUserByEmailOrUsername a a with e | u?
  · simp [AuthService.validateUser, hf, Event.isTerminal]
  · rcases u? with - | u
    · simp [AuthService.validateUser, hf, Event.isTerminal]
    · cases hm : env.scryptVerify p u.password
      · simp [AuthService.validateUser, hf, hm, Event.isTerminal]
      · rcases hu : env.updatePassword u._id (env.scryptHash p) with e | b
        · simp [AuthService.validateUser, AuthService.hashPassword, hf, hm, hu,
            Event.isTerminal]
        · simp [AuthService.validateUser, AuthService.hashPassword, hf, hm, hu,
            Event.isTerminal]

/-- Service traces contain no ack/nack: `login`. -/
theorem svc_login_clean (env : Env) (dto : LoginUserDto) :
    (AuthService.login env dto).1.countP Event.isTerminal = 0 := by
  rcases hv : AuthService.validateUser env dto.usernameOrEmail dto.password
    with ⟨evs, vres⟩
  have hevs : evs.countP Event.isTerminal = 0 := by
    have hc := svc_validateUser_clean env dto.usernameOrEmail dto.password
    rw [hv] at hc
    exact hc
  rcases vres with e | u?
  · simp [AuthService.login, hv, hevs]
  · rcases u? with - | u
    · simp [AuthService.login, hv, hevs]
    · simp [AuthService.login, hv, List.countP_append, hevs,
        svc_generateJWT_clean env { sub := u._id }]

/-- Service traces contain no ack/nack: the `refresh` try block. -/
theorem svc_refreshBody_clean (env : Env) (t : String) :
    (AuthService.refreshBody env t).1.countP Event.isTerminal = 0 := by
  by_cases hb : jsStartsWith t "Bearer " = true
  · rcases hv : env.verifyAsync (jsAt (jsSplit t ' ') 1) env.JWT_REFRESH_SECRET
      with e | p
    · simp [AuthService.refreshBody, hb, hv, Event.isTerminal]
    · simp [AuthService.refreshBody, AuthService.generateJWT, hb, hv, Event.isTerminal]
  · simp [AuthService.refreshBody, hb]

/-- Service traces contain no ack/nack: `refresh`. -/
theorem svc_refresh_clean (env : Env) (t : String) :
    (AuthService.refresh env t).1.countP Event.isTerminal = 0 := by
  rcases hb : AuthService.refreshBody env t with ⟨evs, res⟩
  have hevs : evs.countP Event.isTerminal = 0 := by
    have hc := svc_refreshBody_clean env t
    rw [hb] at hc
    exact hc
  rcases res with e | v <;> simp [AuthService.refresh, hb, hevs]

/-- Service traces contain no ack/nack: the `validateJwt` try block. -/
theorem svc_validateJwtBody_clean (env : Env) (j : String) :
    (AuthService.validateJwtBody env j).1.countP Event.isTerminal = 0 := by
  rcases hv : env.verifyAsync j env.JWT_ACCESS_SECRET with e | p
  · simp [AuthService.validateJwtBody, hv, Event.isTerminal]
  · rcases he : env.isUserIdExist p.sub with e2 | b
    · simp [AuthService.validateJwtBody, hv, he, Event.isTerminal]
    · simp [AuthService.validateJwtBody, hv, he, Event.isTerminal]

/-- Service traces contain no ack/nack: `validateJwt`. -/
theorem svc_validateJwt_clean (env : Env) (j : String) :
    (AuthService.validateJwt env j).1.countP Event.isTerminal = 0 := by
  rcases hb : AuthService.validateJwtBody env j with ⟨evs, res⟩
  have hevs : evs.countP Event.isTerminal = 0 := by
    have hc := svc_validateJwtBody_clean env j
    rw [hb] at hc
    exact hc
  rcases res with e | v <;> simp [AuthService.validateJwt, hb, hevs]

/-- Appending one terminal action to a terminal-free trace yields a
trace with exactly one terminal action, containing that action and not
the other. -/
theorem handler_wrap (evs : List Event) (hclean : evs.countP Event.isTerminal = 0) :
    (evs ++ [Event.ack]).countP Event.isTerminal = 1 ∧
    Event.ack ∈ evs ++ [Event.ack] ∧ Event.nack ∉ evs ++ [Event.ack] ∧
    (evs ++ [Event.nack]).countP Event.isTerminal = 1 ∧
    Event.nack ∈ evs ++ [Event.nack] ∧ Event.ack ∉ evs ++ [Event.nack] := by
  have hno : ∀ ev ∈ evs, ¬ (Event.isTerminal ev = true) :=
    List.countP_eq_zero.mp hclean
  refine ⟨?_, ?_, ?_, ?_, ?_, ?_⟩
  · simp [List.countP_append, hclean, List.countP_cons, Event.isTerminal]
  · exact List.mem_append_right _ (by simp)
  · intro hmem
    rcases List.mem_append.mp hmem with h1 | h1
    · exact hno _ h1 rfl
    · simp at h1
  · simp [List.countP_append, hclean, List.countP_cons, Event.isTerminal]
  · exact List.mem_append_right _ (by simp)
  · intro hmem
    rcases List.mem_append.mp hmem with h1 | h1
    · exact hno _ h1 rfl
    · simp at h1

/-- Claim C6: every one of the five message handlers fires exactly one
terminal action per request — ack on every normal return of the service
method (business-error values included), nack on every thrown error,
with the safe default (`false` or `null`) returned in the nack case. -/
theorem ack_exactly_once (env : Env) :
    (∀ dto : CreateUserDto,
      (AuthController.register env dto).1.countP Event.isTerminal = 1 ∧
      ((∃ v, (AuthService.register env dto).2 = Except.ok v) →
        Event.ack ∈ (AuthController.register env dto).1 ∧
        Event.nack ∉ (AuthController.register env dto).1) ∧
      ((∃ e, (AuthService.register env dto).2 = Except.error e) →
        Event.nack ∈ (AuthController.register env dto).1 ∧
        Event.ack ∉ (AuthController.register env dto).1 ∧
        (AuthController.register env dto).2 = RegResult.rfalse)) ∧
    (∀ dto : LoginUserDto,
      (AuthController.login env dto).1.countP Event.isTerminal = 1 ∧
      ((∃ v, (AuthService.login env dto).2 = Except.ok v) →
        Event.ack ∈ (AuthController.login env dto).1 ∧
        Event.nack ∉ (AuthController.login env dto).1) ∧
      ((∃ e, (AuthService.login env dto).2 = Except.error e) →
        Event.nack ∈ (AuthController.login env dto).1 ∧
        Event.ack ∉ (AuthController.login env dto).1 ∧
        (AuthController.login env dto).2 = RmqResult.null)) ∧
    (∀ t : String,
      (AuthController.refresh env t).1.countP Event.isTerminal = 1 ∧
      ((∃ v, (AuthService.refresh env t).2 = Except.ok v) →
        Event.ack ∈ (AuthController.refresh env t).1 ∧
        Event.nack ∉ (AuthController.refresh env t).1) ∧
      ((∃ e, (AuthService.refresh env t).2 = Except.error e) →
        Event.nack ∈ (AuthController.refresh env t).1 ∧
        Event.ack ∉ (AuthController.refresh env t).1 ∧
        (AuthController.refresh env t).2 = RmqResult.null)) ∧
    (∀ p : String,
      (AuthController.hashPassword env p).1.countP Event.isTerminal = 1 ∧
      ((∃ v, (AuthService.hashPassword env p).2 = Except.ok v) →
        Event.ack ∈ (AuthController.hashPassword env p).1 ∧
        Event.nack ∉ (AuthController.hashPassword env p).1) ∧
      ((∃ e, (AuthService.hashPassword env p).2 = Except.error e) →
        Event.nack ∈ (AuthController.hashPassword env p).1 ∧
        Event.ack ∉ (AuthController.hashPassword env p).1 ∧
        (AuthController.hashPassword env p).2 = RmqResult.null)) ∧
    (∀ j : String,
      (AuthController.validate env j).1.countP Event.isTerminal = 1 ∧
      ((∃ v, (AuthService.validateJwt env j).2 = Except.ok v) →
        Event.ack ∈ (AuthController.validate env j).1 ∧
        Event.nack ∉ (AuthController.validate env j).1) ∧
      ((∃ e, (AuthService.validateJwt env j).2 = Except.error e) →
        Event.nack ∈ (AuthController.validate env j).1 ∧
        Event.ack ∉ (AuthController.validate env j).1 ∧
        (AuthController.validate env j).2 = RmqResult.null)) := by
  refine ⟨fun dto => ?_, fun dto => ?_, fun t => ?_, fun p => ?_, fun j => ?_⟩
  · rcases hsvc : AuthService.register env dto with ⟨evs, res⟩
    have hevs : evs.countP Event.isTerminal = 0 := by
      have hc := svc_register_clean env dto
      rw [hsvc] at hc
      exact hc
    obtain ⟨hc1, hm1, hn1, hc2, hm2, hn2⟩ := handler_wrap evs hevs
    rcases res with e | v
    · refine ⟨?_, fun hex => ?_, fun _ => ?_⟩
      · simp only [AuthController.register, hsvc]
        exact hc2
      · rcases hex with ⟨v, hv2⟩
        simp at hv2
      · simp only [AuthController.register, hsvc]
        exact ⟨hm2, hn2, by trivial⟩
    · refine ⟨?_, fun _ => ?_, fun hex => ?_⟩
      · simp only [AuthController.register, hsvc]
        exact hc1
      · simp only [AuthController.register, hsvc]
        exact ⟨hm1, hn1⟩
      · rcases hex with ⟨e, he⟩
        simp at he
  · rcases hsvc : AuthService.login env dto with ⟨evs, res⟩
    have hevs : evs.countP Event.isTerminal = 0 := by
      have hc := svc_login_clean env dto
      rw [hsvc] at hc
      exact hc
    obtain ⟨hc1, hm1, hn1, hc2, hm2, hn2⟩ := handler_wrap evs hevs
    rcases res with e | v
    · refine ⟨?_, fun hex => ?_, fun _ => ?_⟩
      · simp only [AuthController.login, hsvc]
        exact hc2
      · rcases hex with ⟨v, hv2⟩
        simp at hv2
      · simp only [AuthController.login, hsvc]
        exact ⟨hm2, hn2, by trivial⟩
    · rcases v with - | jwt
      · refine ⟨?_, fun _ => ?_, fun hex => ?_⟩
        · simp only [AuthController.login, hsvc]
          exact hc1
        · simp only [AuthController.login, hsvc]
          exact ⟨hm1, hn1⟩
        · rcases hex with ⟨e, he⟩
          simp at he
      · refine ⟨?_, fun _ => ?_, fun hex => ?_⟩
        · simp only [AuthController.login, hsvc]
          exact hc1
        · simp only [AuthController.login, hsvc]
          exact ⟨hm1, hn1⟩
        · rcases hex with ⟨e, he⟩
          simp at he
  · rcases hsvc : AuthService.refresh env t with ⟨evs, res⟩
    have hevs : evs.countP Event.isTerminal = 0 := by
      have hc := svc_refresh_clean env t
      rw [hsvc] at hc
      exact hc
    obtain ⟨hc1, hm1, hn1, hc2, hm2, hn2⟩ := handler_wrap evs hevs
    rcases res with e | v
    · refine ⟨?_, fun hex => ?_, fun _ => ?_⟩
      · simp only [AuthController.refresh, hsvc]
        exact hc2
      · rcases hex with ⟨v, hv2⟩
        simp at hv2
      · simp only [AuthController.refresh, hsvc]
        exact ⟨hm2, hn2, by trivial⟩
    · rcases v with - | jwt
      · refine ⟨?_, fun _ => ?_, fun hex => ?_⟩
        · simp only [AuthController.refresh, hsvc]
          exact hc1
        · simp only [AuthController.refresh, hsvc]
          exact ⟨hm1, hn1⟩
        · rcases hex with ⟨e, he⟩
          simp at he
      · refine ⟨?_, fun _ => ?_, fun hex => ?_⟩
        · simp only [AuthController.refresh, hsvc]
          exact hc1
        · simp only [AuthController.refresh, hsvc]
          exact ⟨hm1, hn1⟩
        · rcases hex with ⟨e, he⟩
          simp at he
  · rcases hsvc : AuthService.hashPassword env p with ⟨evs, res⟩
    have hevs : evs.countP Event.isTerminal = 0 := by
      have hc := svc_hashPassword_clean env p
      rw [hsvc] at hc
      exact hc
    obtain ⟨hc1, hm1, hn1, hc2, hm2, hn2⟩ := handler_wrap evs hevs
    rcases res with e | v
    · refine ⟨?_, fun hex => ?_, fun _ => ?_⟩
      · simp only [AuthController.hashPassword, hsvc]
        exact hc2
      · rcases hex with ⟨v, hv2⟩
        simp at hv2
      · simp only [AuthController.hashPassword, hsvc]
        exact ⟨hm2, hn2, by trivial⟩
    · refine ⟨?_, fun _ => ?_, fun hex => ?_⟩
      · simp only [AuthController.hashPassword, hsvc]
        exact hc1
      · simp only [AuthController.hashPassword, hsvc]
        exact ⟨hm1, hn1⟩
      · rcases hex with ⟨e, he⟩
        simp at he
  · rcases hsvc : AuthService.validateJwt env j with ⟨evs, res⟩
    have hevs : evs.countP Event.isTerminal = 0 := by
      have hc := svc_validateJwt_clean env j
      rw [hsvc] at hc
      exact hc
    obtain ⟨hc1, hm1, hn1, hc2, hm2, hn2⟩ := handler_wrap evs hevs
    rcases res with e | v
    · refine ⟨?_, fun hex => ?_, fun _ => ?_⟩
      · simp only [AuthController.validate, hsvc]
        exact hc2
      · rcases hex with ⟨v, hv2⟩
        simp at hv2
      · simp only [AuthController.validate, hsvc]
        exact ⟨hm2, hn2, by trivial⟩
    · rcases v with - | pl
      · refine ⟨?_, fun _ => ?_, fun hex => ?_⟩
        · simp only [AuthController.validate, hsvc]
          exact hc1
        · simp only [AuthController.validate, hsvc]
          exact ⟨hm1, hn1⟩
        · rcases hex with ⟨e, he⟩
          simp at he
      · refine ⟨?_, fun _ => ?_, fun hex => ?_⟩
        · simp only [AuthController.validate, hsvc]
          exact hc1
        · simp only [AuthController.validate, hsvc]
          exact ⟨hm1, hn1⟩
        · rcases hex with ⟨e, he⟩
          simp at he

/-- Witness for `ack_exactly_once`: the register handler acks a normal
(business-error) return in `envA` and nacks the thrown directory error
in `envDown`, returning the safe default false. -/
theorem ack_exactly_once_witness :
    (AuthController.register envA
      { username := "alice", email := "a@x.com", password := "x" }).1.countP
        Event.isTerminal = 1 ∧
    (Event.ack ∈ (AuthController.register envA
        { username := "alice", email := "a@x.com", password := "x" }).1 ∧
      Event.nack ∉ (AuthController.register envA
        { username := "alice", email := "a@x.com", password := "x" }).1) ∧
    (Event.nack ∈ (AuthController.register envDown
        { username := "alice", email := "a@x.com", password := "x" }).1 ∧
      Event.ack ∉ (AuthController.register envDown
        { username := "alice", email := "a@x.com", password := "x" }).1 ∧
      (AuthController.register envDown
        { username := "alice", email := "a@x.com", password := "x" }).2 =
        RegResult.rfalse) :=
  ⟨((ack_exactly_once envA).1
      { username := "alice", email := "a@x.com", password := "x" }).1,
   ((ack_exactly_once envA).1
      { username := "alice", email := "a@x.com", password := "x" }).2.1
      ⟨RegResult.rerror { statusCode := 2002, error := "User already exists" },
        by decide⟩,
   ((ack_exactly_once envDown).1
      { username := "alice", email := "a@x.com", password := "x" }).2.2
      ⟨"ECONNREFUSED", by decide⟩⟩

/-- Counterexample to claim C5 as stated: with the directory down
(`envDown`), a `validate` request whose token verifies hits a thrown
directory error (`is-userid-exist` rejects), yet the handler
acknowledges the request — no nack ever fires — because the Auth
Service catches the exception internally and returns `undefined`. -/
theorem gateway_nack_missing_cex :
    Event.isUserExist "u1" (Except.error "ECONNREFUSED") ∈
      (AuthController.validate envDown "atok").1 ∧
    Event.nack ∉ (AuthController.validate envDown "atok").1 ∧
    Event.ack ∈ (AuthController.validate envDown "atok").1 ∧
    (AuthController.validate envDown "atok").2 = RmqResult.undef := by decide

/-- Amended claim C5: thrown failures in `register` and `login` are
caught at the gateway boundary — the request is nacked and the caller
receives the safe default (`false`/`null`); `hashPassword` never
throws, so its catch branch is unreachable; in `refresh` and
`validate`, unexpected failures are caught inside the Auth Service
itself, which returns `undefined` — the gateway then always
acknowledges and never nacks, and the caller still receives a safe
value rather than a propagated exception. -/
theorem gateway_failure_isolation (env : Env) :
    (∀ dto e, (AuthService.register env dto).2 = Except.error e →
      Event.nack ∈ (AuthController.register env dto).1 ∧
      (AuthController.register env dto).2 = RegResult.rfalse) ∧
    (∀ dto e, (AuthService.login env dto).2 = Except.error e →
      Event.nack ∈ (AuthController.login env dto).1 ∧
      (AuthController.login env dto).2 = RmqResult.null) ∧
    (∀ p, (AuthService.hashPassword env p).2 = Except.ok (env.scryptHash p)) ∧
    (∀ t, (∃ v, (AuthService.refresh env t).2 = Except.ok v) ∧
      Event.ack ∈ (AuthController.refresh env t).1 ∧
      Event.nack ∉ (AuthController.refresh env t).1) ∧
    (∀ j, (∃ v, (AuthService.validateJwt env j).2 = Except.ok v) ∧
      Event.ack ∈ (AuthController.validate env j).1 ∧
      Event.nack ∉ (AuthController.validate env j).1) := by
  refine ⟨fun dto e he => ?_, fun dto e he => ?_, fun p => rfl, fun t => ?_, fun j => ?_⟩
  · rcases hsvc : AuthService.register env dto with ⟨evs, res⟩
    have hres : res = Except.error e := by
      rw [hsvc] at he
      exact he
    subst hres
    have hevs : evs.countP Event.isTerminal = 0 := by
      have hc := svc_register_clean env dto
      rw [hsvc] at hc
      exact hc
    obtain ⟨-, -, -, -, hm2, -⟩ := handler_wrap evs hevs
    simp only [AuthController.register, hsvc]
    exact ⟨hm2, by trivial⟩
  · rcases hsvc : AuthService.login env dto with ⟨evs, res⟩
    have hres : res = Except.error e := by
      rw [hsvc] at he
      exact he
    subst hres
    have hevs : evs.countP Event.isTerminal = 0 := by
      have hc := svc_login_clean env dto
      rw [hsvc] at hc
      exact hc
    obtain ⟨-, -, -, -, hm2, -⟩ := handler_wrap evs hevs
    simp only [AuthController.login, hsvc]
    exact ⟨hm2, by trivial⟩
  · rcases hb : AuthService.refreshBody env t with ⟨evs, res⟩
    have hevs : evs.countP Event.isTerminal = 0 := by
      have hc := svc_refreshBody_clean env t
      rw [hb] at hc
      exact hc
    obtain ⟨-, hm1, hn1, -, -, -⟩ := handler_wrap evs hevs
    rcases res with e | v
    · refine ⟨⟨none, by simp [AuthService.refresh, hb]⟩, ?_⟩
      simp only [AuthController.refresh, AuthService.refresh, hb]
      exact ⟨hm1, hn1⟩
    · rcases v with - | jwt
      · refine ⟨⟨none, by simp [AuthService.refresh, hb]⟩, ?_⟩
        simp only [AuthController.refresh, AuthService.refresh, hb]
        exact ⟨hm1, hn1⟩
      · refine ⟨⟨some jwt, by simp [AuthService.refresh, hb]⟩, ?_⟩
        simp only [AuthController.refresh, AuthService.refresh, hb]
        exact ⟨hm1, hn1⟩
  · rcases hb : AuthService.validateJwtBody env j with ⟨evs, res⟩
    have hevs : evs.countP Event.isTerminal = 0 := by
      have hc := svc_validateJwtBody_clean env j
      rw [hb] at hc
      exact hc
    obtain ⟨-, hm1, hn1, -, -, -⟩ := handler_wrap evs hevs
    rcases res with e | v
    · refine ⟨⟨none, by simp [AuthService.validateJwt, hb]⟩, ?_⟩
      simp only [AuthController.validate, AuthService.validateJwt, hb]
      exact ⟨hm1, hn1⟩
    · rcases v with - | pl
      · refine ⟨⟨none, by simp [AuthService.validateJwt, hb]⟩, ?_⟩
        simp only [AuthController.validate, AuthService.validateJwt, hb]
        exact ⟨hm1, hn1⟩
      · refine ⟨⟨some pl, by simp [AuthService.validateJwt, hb]⟩, ?_⟩
        simp only [AuthController.validate, AuthService.validateJwt, hb]
        exact ⟨hm1, hn1⟩

/-- Witness for `gateway_failure_isolation`: with the directory down, a
register request is nacked and the caller receives false. -/
theorem gateway_failure_isolation_witness :
    Event.nack ∈ (AuthController.register envDown
      { username := "alice", email := "a@x.com", password := "x" }).1 ∧
    (AuthController.register envDown
      { username := "alice", email := "a@x.com", password := "x" }).2 =
      RegResult.rfalse :=
  (gateway_failure_isolation envDown).1
    { username := "alice", email := "a@x.com", password := "x" }
    "ECONNREFUSED" (by decide)
